import Mathlib

/-!
Verification of the Risk Engine of the SolyforTrenchers repository:
the weighted-penalty scorer `calculate_risk_score` (src/utils/helpers.py)
and the rug-pull pattern detector `detect_rug_patterns` (src/ai/analyzer.py),
shallowly embedded over `Rat` (Python numerics) with optional fields
modelling `dict.get` defaults.
-/

/-- The open `factors` dictionary passed to `calculate_risk_score`.
Each field is `Option`-valued: `none` models a key missing from the dict,
and `Option.getD` models Python's `dict.get(key, default)`. -/
structure FactorsDict where
  mint_authority_revoked : Option Bool
  freeze_authority_revoked : Option Bool
  holder_count : Option Rat
  top_10_holdings_pct : Option Rat
  dev_holdings_pct : Option Rat
  liquidity_locked : Option Bool
  liquidity_usd : Option Rat
deriving DecidableEq, Repr

/-- Shallow embedding of `calculate_risk_score` (src/utils/helpers.py,
lines 28-76).  Sequential `score += ...` accumulation becomes a chain of
`let` rebindings; `factors.get(k, d)` becomes `Option.getD`; the final
`min(score, 100.0)` clamps the sum. -/
def calculate_risk_score (factors : FactorsDict) : Rat :=
  let score : Rat := 0
  -- Mint authority not renounced: +30
  let score := if !(factors.mint_authority_revoked.getD false) then score + 30 else score
  -- Freeze authority not renounced: +20
  let score := if !(factors.freeze_authority_revoked.getD false) then score + 20 else score
  -- Low holder count: +15
  let holder_count := factors.holder_count.getD 0
  let score :=
    if holder_count < 50 then score + 15
    else if holder_count < 100 then score + 10
    else score
  -- High concentration in top 10: +20
  let top_10_pct := factors.top_10_holdings_pct.getD 0
  let score :=
    if top_10_pct > 80 then score + 20
    else if top_10_pct > 60 then score + 15
    else if top_10_pct > 40 then score + 10
    else score
  -- High dev holdings: +15
  let dev_holdings_pct := factors.dev_holdings_pct.getD 0
  let score :=
    if dev_holdings_pct > 20 then score + 15
    else if dev_holdings_pct > 10 then score + 10
    else score
  -- No liquidity lock: +20
  let score := if !(factors.liquidity_locked.getD false) then score + 20 else score
  -- Low liquidity: +10
  let liquidity_usd := factors.liquidity_usd.getD 0
  let score := if liquidity_usd < 5000 then score + 10 else score
  -- Cap at 100
  min score 100

/-- The spec's `RiskFactors` record: an immutable snapshot with every
field present. -/
structure RiskFactors where
  mint_authority_revoked : Bool
  freeze_authority_revoked : Bool
  holder_count : Rat
  top10_holdings_pct : Rat
  dev_holdings_pct : Rat
  liquidity_locked : Bool
  liquidity_usd : Rat
deriving DecidableEq, Repr

/-- View a fully-populated `RiskFactors` snapshot as the dictionary the
code consumes (every key present). -/
def RiskFactors.toDict (f : RiskFactors) : FactorsDict :=
  ⟨some f.mint_authority_revoked, some f.freeze_authority_revoked,
   some f.holder_count, some f.top10_holdings_pct, some f.dev_holdings_pct,
   some f.liquidity_locked, some f.liquidity_usd⟩

/-- The spec's penalty table, written as the sum of the eleven
mutually-exclusive rows of the table in section 4.1 of the spec
(this definition follows the spec's words, to be compared with
`calculate_risk_score`, which follows the code). -/
def spec_penalty_sum (f : RiskFactors) : Rat :=
  (if f.mint_authority_revoked = false then 30 else 0)
  + (if f.freeze_authority_revoked = false then 20 else 0)
  + (if f.holder_count < 50 then 15 else 0)
  + (if 50 ≤ f.holder_count ∧ f.holder_count < 100 then 10 else 0)
  + (if f.top10_holdings_pct > 80 then 20 else 0)
  + (if 60 < f.top10_holdings_pct ∧ f.top10_holdings_pct ≤ 80 then 15 else 0)
  + (if 40 < f.top10_holdings_pct ∧ f.top10_holdings_pct ≤ 60 then 10 else 0)
  + (if f.dev_holdings_pct > 20 then 15 else 0)
  + (if 10 < f.dev_holdings_pct ∧ f.dev_holdings_pct ≤ 20 then 10 else 0)
  + (if f.liquidity_locked = false then 20 else 0)
  + (if f.liquidity_usd < 5000 then 10 else 0)

/-- A transaction record as consumed by `detect_rug_patterns`:
`tx.get('type')` yields an optional string, `tx.get('amount', 0)` an
optional number. -/
structure TxRecord where
  txType : Option String
  amount : Option Rat
deriving DecidableEq, Repr

/-- The verdict dictionary built by `detect_rug_patterns`. -/
structure RugPatterns where
  is_suspicious : Bool
  risk_level : String
  detected_patterns : List String
  confidence : Rat
deriving DecidableEq, Repr

/-- Shallow embedding of `detect_rug_patterns` (src/ai/analyzer.py,
lines 184-221).  The mutated `patterns` dict becomes sequential record
updates; the two list comprehensions become `List.filter`. -/
def detect_rug_patterns (transaction_history : List TxRecord) : RugPatterns :=
  let patterns : RugPatterns :=
    { is_suspicious := false, risk_level := "LOW",
      detected_patterns := [], confidence := 0 }
  let dev_sells := transaction_history.filter (fun tx => tx.txType = some "dev_sell")
  let lp_removes := transaction_history.filter (fun tx => tx.txType = some "lp_remove")
  let patterns :=
    if dev_sells.length > 3 then
      { patterns with
        detected_patterns := patterns.detected_patterns ++ ["Multiple dev wallet sells detected"],
        risk_level := "MEDIUM" }
    else patterns
  let patterns :=
    if lp_removes.length > 0 then
      let total_removed : Rat := (lp_removes.map (fun tx => tx.amount.getD 0)).sum
      if total_removed > 50 then
        { patterns with
          detected_patterns := patterns.detected_patterns ++ ["Significant liquidity removal"],
          risk_level := "HIGH",
          is_suspicious := true }
      else patterns
    else patterns
  { patterns with
    confidence := min ((patterns.detected_patterns.length : Rat) * 0.3) 1 }

/-- Number of `dev_sell` records in a history. -/
def dev_sell_count (h : List TxRecord) : Nat :=
  (h.filter (fun tx => tx.txType = some "dev_sell")).length

/-- Aggregate `amount` over the `lp_remove` records of a history. -/
def lp_remove_total (h : List TxRecord) : Rat :=
  ((h.filter (fun tx => tx.txType = some "lp_remove")).map (fun tx => tx.amount.getD 0)).sum

/-! ### Helper lemmas for the scorer -/

/-- The holder-count `if/elif` chain of `calculate_risk_score`, as a
standalone function of the field. -/
def holder_penalty (holder_count : Rat) : Rat :=
  if holder_count < 50 then 15 else if holder_count < 100 then 10 else 0

/-- The top-10 concentration `if/elif` chain of `calculate_risk_score`. -/
def top10_penalty (top_10_pct : Rat) : Rat :=
  if top_10_pct > 80 then 20 else if top_10_pct > 60 then 15
  else if top_10_pct > 40 then 10 else 0

/-- The dev-holdings `if/elif` chain of `calculate_risk_score`. -/
def dev_penalty (dev_holdings_pct : Rat) : Rat :=
  if dev_holdings_pct > 20 then 15 else if dev_holdings_pct > 10 then 10 else 0

/-- Pull a conditional increment out of an accumulator. -/
lemma add_ite2 (c : Prop) [Decidable c] (s k : Rat) :
    (if c then s + k else s) = s + (if c then k else 0) := by
  split_ifs <;> ring

/-- Pull an accumulator out of a conditional whose branches both add to it. -/
lemma add_ite_both (c : Prop) [Decidable c] (s a b : Rat) :
    (if c then s + a else s + b) = s + (if c then a else b) := by
  split_ifs <;> ring

/-- `calculate_risk_score` is the clamped sum of seven independent
per-factor contributions. -/
lemma score_decomp (d : FactorsDict) :
    calculate_risk_score d =
      min ((if d.mint_authority_revoked.getD false = false then 30 else 0)
        + (if d.freeze_authority_revoked.getD false = false then 20 else 0)
        + holder_penalty (d.holder_count.getD 0)
        + top10_penalty (d.top_10_holdings_pct.getD 0)
        + dev_penalty (d.dev_holdings_pct.getD 0)
        + (if d.liquidity_locked.getD false = false then 20 else 0)
        + (if d.liquidity_usd.getD 0 < 5000 then 10 else 0)) 100 := by
  simp only [calculate_risk_score, add_ite2, add_ite_both,
    holder_penalty, top10_penalty, dev_penalty, Bool.not_eq_true', zero_add]

/-- The two holder rows of the spec's table sum to the code's holder chain. -/
lemma holder_rows (h : Rat) :
    (if h < 50 then (15 : Rat) else 0) + (if 50 ≤ h ∧ h < 100 then 10 else 0)
      = holder_penalty h := by
  unfold holder_penalty
  by_cases h1 : h < 50
  · have h2 : ¬(50 ≤ h ∧ h < 100) := fun hc => absurd h1 (not_lt.mpr hc.1)
    rw [if_pos h1, if_neg h2, if_pos h1]; ring
  · by_cases h2 : h < 100
    · have h3 : 50 ≤ h ∧ h < 100 := ⟨not_lt.mp h1, h2⟩
      rw [if_neg h1, if_pos h3, if_neg h1, if_pos h2]; ring
    · have h3 : ¬(50 ≤ h ∧ h < 100) := fun hc => absurd hc.2 h2
      rw [if_neg h1, if_neg h3, if_neg h1, if_neg h2]; ring

/-- The three top-10 rows of the spec's table sum to the code's chain. -/
lemma top10_rows (t : Rat) :
    (if t > 80 then (20 : Rat) else 0) + (if 60 < t ∧ t ≤ 80 then 15 else 0)
        + (if 40 < t ∧ t ≤ 60 then 10 else 0)
      = top10_penalty t := by
  unfold top10_penalty
  by_cases h1 : t > 80
  · have h2 : ¬(60 < t ∧ t ≤ 80) := fun hc => absurd hc.2 (not_le.mpr h1)
    have h3 : ¬(40 < t ∧ t ≤ 60) := fun hc => absurd hc.2 (by linarith)
    rw [if_pos h1, if_neg h2, if_neg h3, if_pos h1]; ring
  · by_cases h2 : t > 60
    · have h4 : 60 < t ∧ t ≤ 80 := ⟨h2, not_lt.mp h1⟩
      have h3 : ¬(40 < t ∧ t ≤ 60) := fun hc => absurd hc.2 (not_le.mpr h2)
      rw [if_neg h1, if_pos h4, if_neg h3, if_neg h1, if_pos h2]; ring
    · have h4 : ¬(60 < t ∧ t ≤ 80) := fun hc => absurd hc.1 h2
      by_cases h5 : t > 40
      · have h6 : 40 < t ∧ t ≤ 60 := ⟨h5, not_lt.mp h2⟩
        rw [if_neg h1, if_neg h4, if_pos h6, if_neg h1, if_neg h2, if_pos h5]; ring
      · have h6 : ¬(40 < t ∧ t ≤ 60) := fun hc => absurd hc.1 h5
        rw [if_neg h1, if_neg h4, if_neg h6, if_neg h1, if_neg h2, if_neg h5]; ring

/-- The two dev-holdings rows of the spec's table sum to the code's chain. -/
lemma dev_rows (x : Rat) :
    (if x > 20 then (15 : Rat) else 0) + (if 10 < x ∧ x ≤ 20 then 10 else 0)
      = dev_penalty x := by
  unfold dev_penalty
  by_cases h1 : x > 20
  · have h2 : ¬(10 < x ∧ x ≤ 20) := fun hc => absurd hc.2 (not_le.mpr h1)
    rw [if_pos h1, if_neg h2, if_pos h1]; ring
  · by_cases h2 : x > 10
    · have h3 : 10 < x ∧ x ≤ 20 := ⟨h2, not_lt.mp h1⟩
      rw [if_neg h1, if_pos h3, if_neg h1, if_pos h2]; ring
    · have h3 : ¬(10 < x ∧ x ≤ 20) := fun hc => absurd hc.1 h2
      rw [if_neg h1, if_neg h3, if_neg h1, if_neg h2]; ring

/-- The spec's penalty table, regrouped into the code's seven factors. -/
lemma spec_decomp (f : RiskFactors) :
    spec_penalty_sum f =
      (if f.mint_authority_revoked = false then 30 else 0)
        + (if f.freeze_authority_revoked = false then 20 else 0)
        + holder_penalty f.holder_count
        + top10_penalty f.top10_holdings_pct
        + dev_penalty f.dev_holdings_pct
        + (if f.liquidity_locked = false then 20 else 0)
        + (if f.liquidity_usd < 5000 then 10 else 0) := by
  unfold spec_penalty_sum
  linarith [holder_rows f.holder_count, top10_rows f.top10_holdings_pct,
    dev_rows f.dev_holdings_pct]

/-- Conditional penalties are nonnegative. -/
lemma ite_pen_nonneg (c : Prop) [Decidable c] (a : Rat) (ha : 0 ≤ a) :
    0 ≤ if c then a else 0 := by
  split_ifs <;> simp [ha]

/-- The holder-count penalty is nonnegative. -/
lemma holder_penalty_nonneg (h : Rat) : 0 ≤ holder_penalty h := by
  unfold holder_penalty; split_ifs <;> norm_num

/-- The top-10 penalty is nonnegative. -/
lemma top10_penalty_nonneg (t : Rat) : 0 ≤ top10_penalty t := by
  unfold top10_penalty; split_ifs <;> norm_num

/-- The dev-holdings penalty is nonnegative. -/
lemma dev_penalty_nonneg (x : Rat) : 0 ≤ dev_penalty x := by
  unfold dev_penalty; split_ifs <;> norm_num

/-- A lower holder count never lowers the holder penalty. -/
lemma holder_penalty_anti {a b : Rat} (hab : a ≤ b) :
    holder_penalty b ≤ holder_penalty a := by
  unfold holder_penalty; split_ifs <;> linarith

/-- A higher top-10 concentration never lowers the top-10 penalty. -/
lemma top10_penalty_mono {a b : Rat} (hab : a ≤ b) :
    top10_penalty a ≤ top10_penalty b := by
  unfold top10_penalty; split_ifs <;> linarith

/-- A higher dev-holdings share never lowers the dev penalty. -/
lemma dev_penalty_mono {a b : Rat} (hab : a ≤ b) :
    dev_penalty a ≤ dev_penalty b := by
  unfold dev_penalty; split_ifs <;> linarith

/-! ### Claim theorems for the scorer -/

/-- C1: for every `RiskFactors` input whose numeric fields are in the
spec's ranges, `calculate_risk_score` equals `min` of the spec table's
penalty sum and 100; the all-clean scenario scores 0, and the all-bad
scenario has raw sum 130 and returns exactly 100. -/
theorem riskScore_matches_spec_table :
    (∀ f : RiskFactors, 0 ≤ f.holder_count → 0 ≤ f.top10_holdings_pct →
      f.top10_holdings_pct ≤ 100 → 0 ≤ f.dev_holdings_pct →
      f.dev_holdings_pct ≤ 100 → 0 ≤ f.liquidity_usd →
      calculate_risk_score f.toDict = min (spec_penalty_sum f) 100)
    ∧ calculate_risk_score (RiskFactors.toDict ⟨true, true, 1000, 10, 2, true, 100000⟩) = 0
    ∧ spec_penalty_sum ⟨false, false, 10, 95, 30, false, 100⟩ = 130
    ∧ calculate_risk_score (RiskFactors.toDict ⟨false, false, 10, 95, 30, false, 100⟩) = 100 := by
  refine ⟨fun f _ _ _ _ _ _ => ?_, ?_, ?_, ?_⟩
  · rw [score_decomp, spec_decomp]
    simp [RiskFactors.toDict]
  · norm_num [calculate_risk_score, RiskFactors.toDict]
  · norm_num [spec_penalty_sum]
  · norm_num [calculate_risk_score, RiskFactors.toDict]

/-- Witness for C1: the refinement equality evaluated at a concrete
in-range input. -/
theorem riskScore_matches_spec_table_witness :
    (0 : Rat) ≤ 75 ∧ (0 : Rat) ≤ 50 ∧ (50 : Rat) ≤ 100 ∧ (0 : Rat) ≤ 15
      ∧ (15 : Rat) ≤ 100 ∧ (0 : Rat) ≤ 4000
      ∧ calculate_risk_score (RiskFactors.toDict ⟨true, false, 75, 50, 15, false, 4000⟩)
          = min (spec_penalty_sum ⟨true, false, 75, 50, 15, false, 4000⟩) 100 :=
  ⟨by norm_num, by norm_num, by norm_num, by norm_num, by norm_num, by norm_num,
    riskScore_matches_spec_table.1 ⟨true, false, 75, 50, 15, false, 4000⟩
      (by norm_num) (by norm_num) (by norm_num) (by norm_num) (by norm_num) (by norm_num)⟩

/-- C4: `calculate_risk_score` is total over every factors dictionary,
including out-of-range numeric values, and always returns a score in
`[0, 100]`. -/
theorem riskScore_bounded :
    ∀ d : FactorsDict, 0 ≤ calculate_risk_score d ∧ calculate_risk_score d ≤ 100 := by
  intro d
  rw [score_decomp]
  constructor
  · refine le_min ?_ (by norm_num)
    have h1 := ite_pen_nonneg (d.mint_authority_revoked.getD false = false) 30 (by norm_num)
    have h2 := ite_pen_nonneg (d.freeze_authority_revoked.getD false = false) 20 (by norm_num)
    have h3 := ite_pen_nonneg (d.liquidity_locked.getD false = false) 20 (by norm_num)
    have h4 := ite_pen_nonneg (d.liquidity_usd.getD 0 < 5000) 10 (by norm_num)
    linarith [holder_penalty_nonneg (d.holder_count.getD 0),
      top10_penalty_nonneg (d.top_10_holdings_pct.getD 0),
      dev_penalty_nonneg (d.dev_holdings_pct.getD 0)]
  · exact min_le_right _ _

/-- C5: moving any single field of the factors dictionary in its
risk-increasing direction (lower holder count, higher concentration or
dev share, lower liquidity, an authority no longer revoked, liquidity no
longer locked) never decreases the score. -/
theorem riskScore_monotone :
    ∀ d : FactorsDict,
      (∀ a b : Rat, a ≤ b →
        calculate_risk_score { d with holder_count := some b }
          ≤ calculate_risk_score { d with holder_count := some a })
      ∧ (∀ a b : Rat, a ≤ b →
        calculate_risk_score { d with top_10_holdings_pct := some a }
          ≤ calculate_risk_score { d with top_10_holdings_pct := some b })
      ∧ (∀ a b : Rat, a ≤ b →
        calculate_risk_score { d with dev_holdings_pct := some a }
          ≤ calculate_risk_score { d with dev_holdings_pct := some b })
      ∧ (∀ a b : Rat, a ≤ b →
        calculate_risk_score { d with liquidity_usd := some b }
          ≤ calculate_risk_score { d with liquidity_usd := some a })
      ∧ calculate_risk_score { d with mint_authority_revoked := some true }
          ≤ calculate_risk_score { d with mint_authority_revoked := some false }
      ∧ calculate_risk_score { d with freeze_authority_revoked := some true }
          ≤ calculate_risk_score { d with freeze_authority_revoked := some false }
      ∧ calculate_risk_score { d with liquidity_locked := some true }
          ≤ calculate_risk_score { d with liquidity_locked := some false } := by
  intro d
  refine ⟨fun a b hab => ?_, fun a b hab => ?_, fun a b hab => ?_, fun a b hab => ?_,
    ?_, ?_, ?_⟩ <;>
    rw [score_decomp, score_decomp] <;>
    simp only [Option.getD_some] <;>
    refine min_le_min ?_ le_rfl
  · linarith [holder_penalty_anti hab]
  · linarith [top10_penalty_mono hab]
  · linarith [dev_penalty_mono hab]
  · have hq : (if b < 5000 then (10:Rat) else 0) ≤ (if a < 5000 then 10 else 0) := by
      split_ifs <;> linarith
    linarith
  · simp
  · simp
  · simp

/-- Witness for C5: the holder-count clause evaluated at 30 ≤ 60 on the
empty dictionary. -/
theorem riskScore_monotone_witness :
    (30 : Rat) ≤ 60
      ∧ calculate_risk_score
          { mint_authority_revoked := none, freeze_authority_revoked := none,
            holder_count := some 60, top_10_holdings_pct := none,
            dev_holdings_pct := none, liquidity_locked := none, liquidity_usd := none }
        ≤ calculate_risk_score
          { mint_authority_revoked := none, freeze_authority_revoked := none,
            holder_count := some 30, top_10_holdings_pct := none,
            dev_holdings_pct := none, liquidity_locked := none, liquidity_usd := none } :=
  ⟨by norm_num,
    (riskScore_monotone ⟨none, none, none, none, none, none, none⟩).1 30 60 (by norm_num)⟩

/-- C6: each bucketed factor contributes at most one tier, the most
severe matching one: the score decomposes into single per-factor
contributions, `top10_penalty 85 = 20` (not 45), `holder_penalty 50 = 10`,
`holder_penalty 49 = 15`, and the most severe tier always wins. -/
theorem riskScore_tier_exclusive :
    (∀ d : FactorsDict,
      calculate_risk_score d =
        min ((if d.mint_authority_revoked.getD false = false then 30 else 0)
          + (if d.freeze_authority_revoked.getD false = false then 20 else 0)
          + holder_penalty (d.holder_count.getD 0)
          + top10_penalty (d.top_10_holdings_pct.getD 0)
          + dev_penalty (d.dev_holdings_pct.getD 0)
          + (if d.liquidity_locked.getD false = false then 20 else 0)
          + (if d.liquidity_usd.getD 0 < 5000 then 10 else 0)) 100)
    ∧ top10_penalty 85 = 20
    ∧ holder_penalty 50 = 10
    ∧ holder_penalty 49 = 15
    ∧ (∀ t : Rat, 80 < t → top10_penalty t = 20)
    ∧ (∀ h : Rat, h < 50 → holder_penalty h = 15)
    ∧ (∀ x : Rat, 20 < x → dev_penalty x = 15) := by
  refine ⟨score_decomp, by norm_num [top10_penalty], by norm_num [holder_penalty],
    by norm_num [holder_penalty], fun t ht => ?_, fun h hh => ?_, fun x hx => ?_⟩
  · unfold top10_penalty; rw [if_pos ht]
  · unfold holder_penalty; rw [if_pos hh]
  · unfold dev_penalty; rw [if_pos hx]

/-- Witness for C6: the most-severe-tier clauses evaluated at concrete
points. -/
theorem riskScore_tier_exclusive_witness :
    (80 : Rat) < 95 ∧ top10_penalty 95 = 20 :=
  ⟨by norm_num, riskScore_tier_exclusive.2.2.2.2.1 95 (by norm_num)⟩

/-- C9: `calculate_risk_score` reads every missing field through its
risky default (`false` for the booleans, 0 for the numerics), so the
empty factors dictionary scores exactly 95. -/
theorem riskScore_missing_defaults :
    (∀ d : FactorsDict,
      calculate_risk_score d = calculate_risk_score
        ⟨some (d.mint_authority_revoked.getD false),
         some (d.freeze_authority_revoked.getD false),
         some (d.holder_count.getD 0),
         some (d.top_10_holdings_pct.getD 0),
         some (d.dev_holdings_pct.getD 0),
         some (d.liquidity_locked.getD false),
         some (d.liquidity_usd.getD 0)⟩)
    ∧ calculate_risk_score ⟨none, none, none, none, none, none, none⟩ = 95 := by
  refine ⟨fun d => rfl, ?_⟩
  norm_num [calculate_risk_score]

/-! ### Helper lemmas for the pattern detector -/

/-- Closed form of `detect_rug_patterns`: the verdict is determined by the
two conditions `dev_sell_count > 3` and `lp_remove_total > 50`. -/
lemma detect_eq (h : List TxRecord) :
    detect_rug_patterns h =
      { is_suspicious := if 50 < lp_remove_total h then true else false,
        risk_level :=
          if 50 < lp_remove_total h then "HIGH"
          else if 3 < dev_sell_count h then "MEDIUM" else "LOW",
        detected_patterns :=
          (if 3 < dev_sell_count h then ["Multiple dev wallet sells detected"] else [])
            ++ (if 50 < lp_remove_total h then ["Significant liquidity removal"] else []),
        confidence := min
          ((((if 3 < dev_sell_count h then ["Multiple dev wallet sells detected"] else [])
              ++ (if 50 < lp_remove_total h then ["Significant liquidity removal"] else [])).length : Rat)
            * 0.3) 1 } := by
  unfold detect_rug_patterns dev_sell_count lp_remove_total
  by_cases hd : 3 < (h.filter (fun tx => tx.txType = some "dev_sell")).length
  · by_cases hl0 : 0 < (h.filter (fun tx => tx.txType = some "lp_remove")).length
    · by_cases hl : 50 <
          ((h.filter (fun tx => tx.txType = some "lp_remove")).map (fun tx => tx.amount.getD 0)).sum
      · simp [hd, hl0, hl]
      · simp [hd, hl0, hl]
    · have hnil : h.filter (fun tx => tx.txType = some "lp_remove") = [] :=
        List.length_eq_zero.mp (Nat.le_zero.mp (not_lt.mp hl0))
      simp [hd, hnil]
      norm_num
  · by_cases hl0 : 0 < (h.filter (fun tx => tx.txType = some "lp_remove")).length
    · by_cases hl : 50 <
          ((h.filter (fun tx => tx.txType = some "lp_remove")).map (fun tx => tx.amount.getD 0)).sum
      · simp [hd, hl0, hl]
      · simp [hd, hl0, hl]
    · have hnil : h.filter (fun tx => tx.txType = some "lp_remove") = [] :=
        List.length_eq_zero.mp (Nat.le_zero.mp (not_lt.mp hl0))
      simp [hd, hnil]
      norm_num

/-! ### Claim theorems for the pattern detector -/

/-- C7: `detect_rug_patterns` is total over any finite history, and
whenever no pattern is detected — in particular on the empty history —
it returns risk level LOW, not suspicious, no patterns and confidence 0. -/
theorem detect_total_clean_default :
    detect_rug_patterns [] = ⟨false, "LOW", [], 0⟩
    ∧ ∀ h : List TxRecord, (detect_rug_patterns h).detected_patterns = [] →
        detect_rug_patterns h = ⟨false, "LOW", [], 0⟩ := by
  constructor
  · simp +decide [detect_rug_patterns]
  · intro h hp
    rw [detect_eq] at hp ⊢
    by_cases hd : 3 < dev_sell_count h <;> by_cases hl : 50 < lp_remove_total h <;>
      simp [hd, hl] at hp ⊢

/-- Witness for C7: the no-pattern clause applied to the empty history. -/
theorem detect_total_clean_default_witness :
    (detect_rug_patterns []).detected_patterns = []
      ∧ detect_rug_patterns [] = ⟨false, "LOW", [], 0⟩ :=
  ⟨by simp +decide [detect_rug_patterns],
    detect_total_clean_default.2 [] (by simp +decide [detect_rug_patterns])⟩

/-- C2: the liquidity-removal pattern, risk level HIGH and the
suspicious flag fire exactly when the aggregate `lp_remove` amount
strictly exceeds 50, independently of the dev-sell check; exactly 50
fires nothing, and when both patterns fire the dev pattern comes first
with confidence 0.6. -/
theorem liquidity_pattern_iff :
    (∀ h : List TxRecord,
      ("Significant liquidity removal" ∈ (detect_rug_patterns h).detected_patterns
          ∧ (detect_rug_patterns h).risk_level = "HIGH"
          ∧ (detect_rug_patterns h).is_suspicious = true)
        ↔ 50 < lp_remove_total h)
    ∧ (∀ h : List TxRecord, lp_remove_total h = 50 →
        "Significant liquidity removal" ∉ (detect_rug_patterns h).detected_patterns)
    ∧ (∀ h : List TxRecord, 3 < dev_sell_count h → 50 < lp_remove_total h →
        (detect_rug_patterns h).detected_patterns
            = ["Multiple dev wallet sells detected", "Significant liquidity removal"]
          ∧ (detect_rug_patterns h).confidence = 0.6)
    ∧ detect_rug_patterns
          (List.replicate 4 ⟨some "dev_sell", some 1⟩ ++ [⟨some "lp_remove", some 60⟩])
        = ⟨true, "HIGH",
            ["Multiple dev wallet sells detected", "Significant liquidity removal"], 0.6⟩ := by
  refine ⟨fun h => ?_, fun h hs => ?_, fun h hd hl => ?_, ?_⟩
  · rw [detect_eq]
    by_cases hd : 3 < dev_sell_count h <;> by_cases hl : 50 < lp_remove_total h <;>
      simp +decide [hd, hl]
  · rw [detect_eq]
    have hl : ¬(50 < lp_remove_total h) := by rw [hs]; norm_num
    by_cases hd : 3 < dev_sell_count h <;> simp +decide [hd, hl]
  · rw [detect_eq]
    simp +decide [hd, hl]
    norm_num
  · simp +decide [detect_rug_patterns, List.replicate]
    norm_num

/-- Witness for C2: the exactly-50 clause applied to a single 50-unit
`lp_remove` record, and the both-patterns clause applied to the spec's
scenario history. -/
theorem liquidity_pattern_iff_witness :
    lp_remove_total [⟨some "lp_remove", some 50⟩] = 50
      ∧ "Significant liquidity removal"
          ∉ (detect_rug_patterns [⟨some "lp_remove", some 50⟩]).detected_patterns :=
  ⟨by simp +decide [lp_remove_total],
    liquidity_pattern_iff.2.1 [⟨some "lp_remove", some 50⟩]
      (by simp +decide [lp_remove_total])⟩

/-- C3: the dev-sells pattern fires exactly when the history holds
strictly more than three `dev_sell` records, raising the risk level to at
least MEDIUM; alone it yields MEDIUM, not suspicious, confidence 0.3, and
in general confidence is `min(0.3 × patterns, 1.0)`. -/
theorem dev_pattern_iff :
    (∀ h : List TxRecord,
      "Multiple dev wallet sells detected" ∈ (detect_rug_patterns h).detected_patterns
        ↔ 3 < dev_sell_count h)
    ∧ (∀ h : List TxRecord, 3 < dev_sell_count h →
        (detect_rug_patterns h).risk_level = "MEDIUM"
          ∨ (detect_rug_patterns h).risk_level = "HIGH")
    ∧ (∀ h : List TxRecord,
        (detect_rug_patterns h).detected_patterns = ["Multiple dev wallet sells detected"] →
        (detect_rug_patterns h).risk_level = "MEDIUM"
          ∧ (detect_rug_patterns h).is_suspicious = false
          ∧ (detect_rug_patterns h).confidence = 0.3)
    ∧ detect_rug_patterns (List.replicate 4 ⟨some "dev_sell", some 1⟩)
        = ⟨false, "MEDIUM", ["Multiple dev wallet sells detected"], 0.3⟩
    ∧ (∀ h : List TxRecord,
        (detect_rug_patterns h).confidence
          = min (0.3 * ((detect_rug_patterns h).detected_patterns.length : Rat)) 1) := by
  refine ⟨fun h => ?_, fun h hd => ?_, fun h hp => ?_, ?_, fun h => ?_⟩
  · rw [detect_eq]
    by_cases hd : 3 < dev_sell_count h <;> by_cases hl : 50 < lp_remove_total h <;>
      simp +decide [hd, hl]
  · rw [detect_eq]
    by_cases hl : 50 < lp_remove_total h <;> simp +decide [hd, hl]
  · rw [detect_eq] at hp ⊢
    by_cases hd : 3 < dev_sell_count h <;> by_cases hl : 50 < lp_remove_total h <;>
      simp +decide [hd, hl] at hp ⊢
    norm_num
  · simp +decide [detect_rug_patterns, List.replicate]
    norm_num
  · rw [detect_eq]
    by_cases hd : 3 < dev_sell_count h <;> by_cases hl : 50 < lp_remove_total h <;>
      simp +decide [hd, hl] <;> norm_num

/-- Witness for C3: the at-least-MEDIUM clause applied to the
four-dev-sells scenario history. -/
theorem dev_pattern_iff_witness :
    3 < dev_sell_count (List.replicate 4 ⟨some "dev_sell", some 1⟩)
      ∧ ((detect_rug_patterns (List.replicate 4 ⟨some "dev_sell", some 1⟩)).risk_level = "MEDIUM"
        ∨ (detect_rug_patterns (List.replicate 4 ⟨some "dev_sell", some 1⟩)).risk_level = "HIGH") :=
  ⟨by simp +decide [dev_sell_count, List.replicate],
    dev_pattern_iff.2.1 (List.replicate 4 ⟨some "dev_sell", some 1⟩)
      (by simp +decide [dev_sell_count, List.replicate])⟩

/-- C8: records whose kind is neither `dev_sell` nor `lp_remove` never
change the verdict: the detector gives the same result on the
sub-history of `dev_sell` and `lp_remove` records. -/
theorem detect_ignores_other_kinds :
    ∀ h : List TxRecord,
      detect_rug_patterns h
        = detect_rug_patterns (h.filter
            (fun tx => tx.txType = some "dev_sell" ∨ tx.txType = some "lp_remove")) := by
  intro h
  have hdev : (h.filter
        (fun tx => tx.txType = some "dev_sell" ∨ tx.txType = some "lp_remove")).filter
          (fun tx => tx.txType = some "dev_sell")
      = h.filter (fun tx => tx.txType = some "dev_sell") := by
    rw [List.filter_filter]
    refine List.filter_congr fun x _ => ?_
    by_cases hx : x.txType = some "dev_sell" <;> simp [hx]
  have hlp : (h.filter
        (fun tx => tx.txType = some "dev_sell" ∨ tx.txType = some "lp_remove")).filter
          (fun tx => tx.txType = some "lp_remove")
      = h.filter (fun tx => tx.txType = some "lp_remove") := by
    rw [List.filter_filter]
    refine List.filter_congr fun x _ => ?_
    by_cases hx : x.txType = some "lp_remove" <;> simp [hx]
  simp only [detect_rug_patterns, hdev, hlp]

/-- C10: in every verdict, the suspicious flag holds exactly when the
risk level is HIGH, which holds exactly when the liquidity-removal
pattern was detected; without that pattern the verdict is never
suspicious and never above MEDIUM. -/
theorem verdict_invariants :
    ∀ h : List TxRecord,
      ((detect_rug_patterns h).is_suspicious = true
          ↔ (detect_rug_patterns h).risk_level = "HIGH")
      ∧ ((detect_rug_patterns h).risk_level = "HIGH"
          ↔ "Significant liquidity removal" ∈ (detect_rug_patterns h).detected_patterns)
      ∧ ("Significant liquidity removal" ∉ (detect_rug_patterns h).detected_patterns →
          (detect_rug_patterns h).is_suspicious = false
            ∧ ((detect_rug_patterns h).risk_level = "MEDIUM"
              ∨ (detect_rug_patterns h).risk_level = "LOW")) := by
  intro h
  rw [detect_eq]
  by_cases hd : 3 < dev_sell_count h <;> by_cases hl : 50 < lp_remove_total h <;>
    simp +decide [hd, hl]

/-- Witness for C10: the no-liquidity-pattern clause applied to the
empty history. -/
theorem verdict_invariants_witness :
    "Significant liquidity removal" ∉ (detect_rug_patterns []).detected_patterns
      ∧ ((detect_rug_patterns []).is_suspicious = false
        ∧ ((detect_rug_patterns []).risk_level = "MEDIUM"
          ∨ (detect_rug_patterns []).risk_level = "LOW")) :=
  ⟨by simp +decide [detect_rug_patterns],
    (verdict_invariants []).2.2 (by simp +decide [detect_rug_patterns])⟩
